import Mathlib

/-
  Verification of the session / authentication-token lifecycle core of the
  job-portal repository.

  The definitions below are a shallow embedding of the TypeScript sources:
    - src/features/auth/services/auth.service.ts   (authService)
    - src/lib/repositories/auth.repository.ts      (authRepository, src/unnamed/part_006)
    - src/lib/auth/session.ts                      (token codec, session store)
    - src/features/auth/server/procedures.ts       (authRouter.signIn session block)
    - src/prisma/migrations/20251121175541_init/migration.sql (column defaults)

  Conventions of the embedding:
    - Database rows (Prisma models) are Lean structures, tables are lists.
    - Wall-clock time is an explicit `Nat` parameter (milliseconds in the
      service layer, seconds in the JWT layer, matching each source file).
    - Randomness (OTP codes, generated ids) and external effects (email
      delivery success) are explicit parameters of the operations.
    - bcryptjs hashing is modelled as an injective tagging function with the
      library's contract: compare succeeds exactly on the hashed password.
    - JWT signing is modelled structurally: a token is its payload plus the
      key it was signed with; verification checks the key and the expiry,
      exactly the checks `jose.jwtVerify` performs that matter here.
    - Thrown service errors are values of an explicit error type.
-/

namespace JobPortal

/-- Model of JavaScript String.prototype.toLowerCase (used by the
repository on every email and by the zod validators): character-wise simple
lowercasing.  Defined over the string's character list so that it computes
by reduction. -/
def lower (s : String) : String := String.mk (s.data.map Char.toLower)

/-- UserStatus enum from src/types/common.types.ts. -/
inductive UserStatus where
  | active
  | inactive
  | suspended
  | deactivated
  deriving DecidableEq, Repr

/-- UserRole enum from src/types/common.types.ts (admin / employer / job_seeker). -/
inductive Role where
  | admin
  | employer
  | job_seeker
  deriving DecidableEq, Repr

/-- Row of the `users` table (migration.sql).  Fields not touched by the
authentication core (phoneNumber, timezone, ...) are omitted.  Column
defaults relevant here: status `inactive`, verified `false`,
failedLoginAttempts `0`, lockedUntil NULL. -/
structure User where
  id : String
  name : String
  email : String
  passwordHash : Option String
  role : Role
  verified : Bool
  status : UserStatus
  verifiedAt : Option Nat
  failedLoginAttempts : Nat
  lockedUntil : Option Nat
  lastLogin : Option Nat
  deriving DecidableEq, Repr

/-- Row of the `verification_tokens` table (migration.sql): identifier is the
email, `otp` the 6-digit code, `expires` the expiry instant, `attempts`
defaults to 0, `lockedUntil` NULL. -/
structure VerificationToken where
  identifier : String
  otp : String
  expires : Nat
  attempts : Nat
  lockedUntil : Option Nat
  deriving DecidableEq, Repr

/-- The relational store as seen by the authentication core. -/
structure DB where
  users : List User
  tokens : List VerificationToken
  deriving DecidableEq, Repr

namespace authRepository

/-- authRepository.createUser: inserts a user with the migration's column
defaults (inactive, unverified, zero failed attempts); email is lowercased.
The generated id is an explicit parameter of the embedding. -/
def createUser (db : DB) (newId name email passwordHash : String) (role : Role) : DB × User :=
  let u : User :=
    { id := newId, name := name, email := lower email,
      passwordHash := some passwordHash, role := role,
      verified := false, status := UserStatus.inactive, verifiedAt := none,
      failedLoginAttempts := 0, lockedUntil := none, lastLogin := none }
  ({ db with users := db.users ++ [u] }, u)

/-- authRepository.findByEmail: unique lookup by lowercased email. -/
def findByEmail (db : DB) (email : String) : Option User :=
  db.users.find? (fun u => u.email == lower email)

/-- authRepository.emailExists. -/
def emailExists (db : DB) (email : String) : Bool :=
  (db.users.find? (fun u => u.email == lower email)).isSome

/-- Lookup of a user row by primary key (prisma `where: { id }`). -/
def findById (db : DB) (userId : String) : Option User :=
  db.users.find? (fun u => u.id == userId)

/-- authRepository.updateVerificationStatus: sets verified, verifiedAt
(now when verifying, NULL otherwise) and status (active when verifying,
inactive otherwise) on the user with the given id. -/
def updateVerificationStatus (db : DB) (userId : String) (verified : Bool) (now : Nat) : DB :=
  { db with users := db.users.map (fun u =>
      if u.id == userId then
        { u with verified := verified,
                 verifiedAt := if verified then some now else none,
                 status := if verified then UserStatus.active else UserStatus.inactive }
      else u) }

/-- authRepository.updateLastLogin. -/
def updateLastLogin (db : DB) (userId : String) (now : Nat) : DB :=
  { db with users := db.users.map (fun u =>
      if u.id == userId then { u with lastLogin := some now } else u) }

/-- authRepository.createVerificationOTP with its default expiry of
5 * 60 * 1000 ms; identifier is the lowercased email. -/
def createVerificationOTP (db : DB) (email otp : String) (now : Nat) : DB :=
  { db with tokens := db.tokens ++
      [{ identifier := lower email, otp := otp, expires := now + 5 * 60 * 1000,
         attempts := 0, lockedUntil := none }] }

/-- authRepository.findVerificationOTP: first record matching lowercased
email and code whose expiry is still in the future (`expires: gt now`). -/
def findVerificationOTP (db : DB) (email otp : String) (now : Nat) : Option VerificationToken :=
  db.tokens.find? (fun t => t.identifier == lower email && t.otp == otp && decide (now < t.expires))

/-- authRepository.deleteVerificationOTPsByEmail: deleteMany by lowercased
email. -/
def deleteVerificationOTPsByEmail (db : DB) (email : String) : DB :=
  { db with tokens := db.tokens.filter (fun t => !(t.identifier == lower email)) }

/-- authRepository.incrementOTPAttempts: updateMany incrementing `attempts`
on every token row of the lowercased email. -/
def incrementOTPAttempts (db : DB) (email : String) : DB :=
  { db with tokens := db.tokens.map (fun t =>
      if t.identifier == lower email then { t with attempts := t.attempts + 1 } else t) }

/-- authRepository.lockOTPVerification: updateMany setting
`lockedUntil := now + durationMs` on every token row of the email. -/
def lockOTPVerification (db : DB) (email : String) (durationMs now : Nat) : DB :=
  { db with tokens := db.tokens.map (fun t =>
      if t.identifier == lower email then { t with lockedUntil := some (now + durationMs) } else t) }

/-- authRepository.isOTPLocked: true when some token row of the email has a
`lockedUntil` strictly in the future. -/
def isOTPLocked (db : DB) (email : String) (now : Nat) : Bool :=
  db.tokens.any (fun t => t.identifier == lower email &&
    (match t.lockedUntil with
     | some l => decide (now < l)
     | none => false))

/-- authRepository.incrementFailedLoginAttempts: looks the user up by
lowercased email; when absent returns the store unchanged and `none`,
otherwise increments the counter on that user's row and returns the new
value (the `failedLoginAttempts` of the updated row). -/
def incrementFailedLoginAttempts (db : DB) (email : String) : DB × Option Nat :=
  match db.users.find? (fun u => u.email == lower email) with
  | none => (db, none)
  | some user =>
    ({ db with users := db.users.map (fun u =>
        if u.id == user.id then { u with failedLoginAttempts := u.failedLoginAttempts + 1 } else u) },
     some (user.failedLoginAttempts + 1))

/-- authRepository.lockAccount: sets `lockedUntil := now + durationMs` on the
user row with the given id. -/
def lockAccount (db : DB) (userId : String) (durationMs now : Nat) : DB :=
  { db with users := db.users.map (fun u =>
      if u.id == userId then { u with lockedUntil := some (now + durationMs) } else u) }

/-- authRepository.resetFailedLoginAttempts: zeroes the counter on the user
row with the given id. -/
def resetFailedLoginAttempts (db : DB) (userId : String) : DB :=
  { db with users := db.users.map (fun u =>
      if u.id == userId then { u with failedLoginAttempts := 0 } else u) }

end authRepository

/-! Service layer: src/features/auth/services/auth.service.ts. -/

/-- Security constants of auth.service.ts. -/
def SALT_ROUNDS : Nat := 10

/-- OTP_MAX_ATTEMPTS from auth.service.ts. -/
def OTP_MAX_ATTEMPTS : Nat := 3

/-- OTP_LOCKOUT_MINUTES from auth.service.ts. -/
def OTP_LOCKOUT_MINUTES : Nat := 15

/-- LOGIN_MAX_ATTEMPTS from auth.service.ts. -/
def LOGIN_MAX_ATTEMPTS : Nat := 5

/-- LOGIN_LOCKOUT_MINUTES from auth.service.ts. -/
def LOGIN_LOCKOUT_MINUTES : Nat := 15

/-- TIMING_ATTACK_DELAY_MS from auth.service.ts. -/
def TIMING_ATTACK_DELAY_MS : Nat := 800

/-- Model of bcryptjs.hash with a fixed work factor: an injective one-way
tag of the password.  Only the contract used by the service matters:
compare(p, hash(q)) holds exactly when p = q. -/
def bcryptHash (password : String) : String :=
  "bcrypt2b10" ++ password

/-- authService.hashPassword. -/
def hashPassword (password : String) : String :=
  bcryptHash password

/-- authService.comparePassword: returns false outright when either input is
missing (falsy), otherwise the bcryptjs comparison, modelled per the bcrypt
contract as equality with the re-derived hash. -/
def comparePassword (password hashedPassword : String) : Bool :=
  if password.isEmpty || hashedPassword.isEmpty then false
  else bcryptHash password == hashedPassword

/-- Errors thrown by authService (lib/errors plus generic `Error` messages),
as a closed taxonomy. -/
inductive AuthError where
  | emailAlreadyRegistered
  | otpLocked (minutesRemaining : Nat)
  | invalidOrExpiredOTP
  | userNotFound
  | accountLocked (minutesRemaining : Nat)
  | accountDisabled (status : UserStatus)
  | invalidCredentials
  deriving DecidableEq, Repr

/-- Public user summary returned by signup (the prisma `select` of
createUser). -/
structure UserSummary where
  id : String
  name : String
  email : String
  role : Role
  verified : Bool
  deriving DecidableEq, Repr

/-- Result payload of authService.signup. -/
structure SignupResult where
  message : String
  success : Bool
  user : UserSummary
  deriving DecidableEq, Repr

/-- Input of authService.signup (SignUpInput validator shape). -/
structure SignUpInput where
  name : String
  email : String
  password : String
  role : Role
  deriving DecidableEq, Repr

/-- authService.signup.  `newId` stands for the database-generated id, `otp`
for the random 6-digit code of generateVerificationOTP, and
`emailDeliveryOk` for whether emailService.sendVerificationEmail succeeds;
the catch block swallows a delivery failure, so the parameter cannot
influence the outcome. -/
def signup (db : DB) (now : Nat) (newId otp : String) (input : SignUpInput)
    (emailDeliveryOk : Bool) : DB × Except AuthError SignupResult :=
  if authRepository.emailExists db input.email then
    (db, Except.error AuthError.emailAlreadyRegistered)
  else
    let passwordHash := hashPassword input.password
    let created := authRepository.createUser db newId input.name input.email passwordHash input.role
    let db2 := authRepository.createVerificationOTP created.1 created.2.email otp now
    -- try/catch around emailService.sendVerificationEmail: failure only logged
    let _ := emailDeliveryOk
    (db2, Except.ok
      { message := "Account created successfully. Please verify your email",
        success := true,
        user := { id := created.2.id, name := created.2.name, email := created.2.email,
                  role := created.2.role, verified := created.2.verified } })

/-- Result payload of authService.verifyEmail. -/
structure VerifyResult where
  message : String
  success : Bool
  userId : String
  verified : Bool
  deriving DecidableEq, Repr

/-- authService.verifyEmail.  Faithful points: the lockout precheck and the
OTP lookup lowercase the email (repository calls), while the queries inside
the prisma transaction use `input.email` verbatim; the attempt counter read
is the `attempts` of the first token row of the email, and the increment is
an updateMany over all its rows. -/
def verifyEmail (db : DB) (now : Nat) (email otpInput : String) :
    DB × Except AuthError VerifyResult :=
  if authRepository.isOTPLocked db email now then
    (db, Except.error (AuthError.otpLocked OTP_LOCKOUT_MINUTES))
  else
    match authRepository.findVerificationOTP db email otpInput now with
    | none =>
      -- prisma.$transaction: read the first token row's attempts, then
      -- updateMany incrementing attempts on every row of the email
      let anyToken := db.tokens.find? (fun t => t.identifier == email)
      let currentAttempts := (anyToken.map VerificationToken.attempts).getD 0
      let newAttempts := currentAttempts + 1
      let db1 : DB := { db with tokens := db.tokens.map (fun t =>
        if t.identifier == email then { t with attempts := t.attempts + 1 } else t) }
      if OTP_MAX_ATTEMPTS ≤ newAttempts then
        let db2 := authRepository.lockOTPVerification db1 email (OTP_LOCKOUT_MINUTES * 60 * 1000) now
        (db2, Except.error (AuthError.otpLocked OTP_LOCKOUT_MINUTES))
      else
        (db1, Except.error AuthError.invalidOrExpiredOTP)
    | some _ =>
      match authRepository.findByEmail db email with
      | none => (db, Except.error AuthError.userNotFound)
      | some user =>
        let db1 := authRepository.updateVerificationStatus db user.id true now
        let db2 := authRepository.deleteVerificationOTPsByEmail db1 email
        (db2, Except.ok
          { message := "Email verified successfully", success := true,
            userId := user.id, verified := true })

/-- Result payload of authService.resendVerificationEmail, together with the
total wall-clock duration of the call (elapsed real work plus the
normalising delay). -/
structure ResendResult where
  message : String
  success : Bool
  totalDurationMs : Nat
  deriving DecidableEq, Repr

/-- authService.resendVerificationEmail.  `elapsedWorkMs` is the real time
the lookups/DB writes/email dispatch took; the function then sleeps
`max 0 (TIMING_ATTACK_DELAY_MS - elapsed)` so the total duration is topped
up to the 800ms floor.  `emailDeliveryOk` is swallowed as in signup. -/
def resendVerificationEmail (db : DB) (now : Nat) (email newOtp : String)
    (emailDeliveryOk : Bool) (elapsedWorkMs : Nat) : DB × ResendResult :=
  let user? := authRepository.findByEmail db email
  let db1 :=
    match user? with
    | some user =>
      if user.verified then db
      else
        -- unverified user: delete old OTPs, create a fresh one, send email
        let _ := emailDeliveryOk
        authRepository.createVerificationOTP
          (authRepository.deleteVerificationOTPsByEmail db email) user.email newOtp now
    | none => db
  let remainingDelay := TIMING_ATTACK_DELAY_MS - elapsedWorkMs
  (db1,
   { message := "If an account exists with this email, verification email has been sent",
     success := true,
     totalDurationMs := elapsedWorkMs + remainingDelay })

/-- Input of authService.signIn. -/
structure SignInInput where
  email : String
  password : String
  deriving DecidableEq, Repr

/-- Result payload of authService.signIn. -/
structure SignInResult where
  message : String
  success : Bool
  verified : Bool
  user : UserSummary
  deriving DecidableEq, Repr

/-- Truthiness of `user.lockedUntil && user.lockedUntil > new Date()`. -/
def lockActive (u : User) (now : Nat) : Bool :=
  match u.lockedUntil with
  | some l => decide (now < l)
  | none => false

/-- Math.ceil((lockedUntil - now) / 60000) for a lock strictly in the
future. -/
def minutesRemainingOf (lockedUntil now : Nat) : Nat :=
  (lockedUntil - now + (60 * 1000 - 1)) / (60 * 1000)

/-- authService.signIn.  Order of the source: findByEmail; future-lock check
(before any password work); missing-user dummy compare (state unchanged);
missing-hash check; password compare; on failure increment the counter and
lock at the threshold; on success reset the counter, then the
status-if-verified check, then updateLastLogin. -/
def signIn (db : DB) (now : Nat) (input : SignInInput) : DB × Except AuthError SignInResult :=
  match authRepository.findByEmail db input.email with
  | some user =>
    if lockActive user now then
      (db, Except.error (AuthError.accountLocked (minutesRemainingOf (user.lockedUntil.getD 0) now)))
    else
      match user.passwordHash with
      | none => (db, Except.error AuthError.invalidCredentials)
      | some hash =>
        if comparePassword input.password hash then
          let db1 := authRepository.resetFailedLoginAttempts db user.id
          if user.verified && !(user.status == UserStatus.active) then
            (db1, Except.error (AuthError.accountDisabled user.status))
          else
            let db2 := authRepository.updateLastLogin db1 user.id now
            (db2, Except.ok
              { message := if user.verified then "Sign in successful"
                           else "Please verify your email to access all features",
                success := true, verified := user.verified,
                user := { id := user.id, name := user.name, email := user.email,
                          role := user.role, verified := user.verified } })
        else
          let incr := authRepository.incrementFailedLoginAttempts db user.email
          match incr.2 with
          | some cnt =>
            if LOGIN_MAX_ATTEMPTS ≤ cnt then
              let db2 := authRepository.lockAccount incr.1 user.id (LOGIN_LOCKOUT_MINUTES * 60 * 1000) now
              (db2, Except.error (AuthError.accountLocked LOGIN_LOCKOUT_MINUTES))
            else
              (incr.1, Except.error AuthError.invalidCredentials)
          | none => (incr.1, Except.error AuthError.invalidCredentials)
  | none =>
    -- dummy bcrypt comparison against DUMMY_HASH for timing, then failure
    (db, Except.error AuthError.invalidCredentials)

/-! Token codec and session store: src/lib/auth/session.ts.  Time here is in
seconds (the source computes `Math.floor(Date.now() / 1000)`). -/

/-- Token type discriminator of SessionData.type. -/
inductive TokType where
  | access
  | refresh
  deriving DecidableEq, Repr

/-- JWT payload as actually put on the wire.  The TypeScript interface
SessionData declares email/name/role/verified as required, but the refresh
token's payload genuinely carries only `userId` and `type` (the cast
`as unknown as SessionData` hides this), so those fields are optional
here. -/
structure SessionData where
  userId : String
  email : Option String
  name : Option String
  role : Option Role
  verified : Option Bool
  type : Option TokType
  iat : Option Nat
  exp : Option Nat
  deriving DecidableEq, Repr

/-- Structural model of a signed compact token: its payload plus the key it
was signed with.  `jose.SignJWT(...).sign(key)` is injective in both. -/
structure Jwt where
  payload : SessionData
  signedWith : String
  deriving DecidableEq, Repr

/-- generateAccessToken: payload is the given session data with
type := access, iat := now, exp := now + 1 day (in seconds). -/
def generateAccessToken (secret : String) (nowSec : Nat) (sessionData : SessionData) : Jwt :=
  { payload := { sessionData with
                 type := some TokType.access
                 iat := some nowSec
                 exp := some (nowSec + 24 * 60 * 60) },
    signedWith := secret }

/-- generateRefreshToken: payload carries only the userId and
type := refresh, iat := now, exp := now + 7 days (in seconds). -/
def generateRefreshToken (secret : String) (nowSec : Nat) (sessionData : SessionData) : Jwt :=
  { payload := { userId := sessionData.userId, email := none, name := none,
                 role := none, verified := none, type := some TokType.refresh,
                 iat := some nowSec, exp := some (nowSec + 7 * 24 * 60 * 60) },
    signedWith := secret }

/-- verifyToken: `jose.jwtVerify` checks the signature against the secret
and rejects a present `exp` that is not in the future; any failure is
caught and returned as null, so the function is total on its input. -/
def verifyToken (secret : String) (nowSec : Nat) (token : Jwt) : Option SessionData :=
  if token.signedWith == secret &&
     (match token.payload.exp with
      | some e => decide (nowSec < e)
      | none => true) then
    some token.payload
  else
    none

/-- Value stored under `session:userId` by storeSession: the JSON of the
session data spread together with the refresh token and a creation
timestamp; `setex` gives it a 7-day expiry. -/
structure StoredSession where
  data : SessionData
  refreshToken : Jwt
  createdAt : Nat
  expiresAt : Nat
  deriving DecidableEq, Repr

/-- The Redis keyspace used by session.ts: `session:` keys only. -/
structure RedisState where
  sessions : List (String × StoredSession)
  deriving DecidableEq, Repr

/-- storeSession: overwrites the session record of the principal with one
holding the session data, the refresh token as passed in, and createdAt;
expiry 7 days. -/
def storeSession (redis : RedisState) (nowSec : Nat) (sessionData : SessionData)
    (refreshToken : Jwt) : RedisState :=
  let key := sessionData.userId
  let record : StoredSession :=
    { data := sessionData, refreshToken := refreshToken,
      createdAt := nowSec, expiresAt := nowSec + 7 * 24 * 60 * 60 }
  { sessions := (key, record) :: redis.sessions.filter (fun kv => !(kv.1 == key)) }

/-- getSession: Redis returns the stored value while its TTL has not
elapsed, null afterwards. -/
def getSession (redis : RedisState) (nowSec : Nat) (userId : String) : Option StoredSession :=
  match redis.sessions.find? (fun kv => kv.1 == userId) with
  | some kv => if nowSec < kv.2.expiresAt then some kv.2 else none
  | none => none

/-- The two auth cookies set by setAuthCookies / read by the session
helpers. -/
structure Cookies where
  accessToken : Option Jwt
  refreshToken : Option Jwt
  deriving DecidableEq, Repr

/-- Server-side state touched by the session helpers: the request's cookie
jar and the Redis session store. -/
structure ServerState where
  cookies : Cookies
  redis : RedisState
  deriving DecidableEq, Repr

/-- getCurrentSession: reads the accessToken cookie and returns whatever
verifyToken yields for it — no check of the payload's type discriminator. -/
def getCurrentSession (secret : String) (nowSec : Nat) (cookies : Cookies) : Option SessionData :=
  match cookies.accessToken with
  | none => none
  | some token => verifyToken secret nowSec token

/-- refreshAccessToken: reads the refreshToken cookie, verifies it and its
type, loads the session record for the embedded principal, then issues a
fresh access + refresh pair and replaces both cookies.  The Redis store is
not consulted for the token's identity and not written: there is no
comparison of the presented token with the stored one, no revocation
ledger, and no session deletion on any path. -/
def refreshAccessToken (secret : String) (nowSec : Nat) (st : ServerState) :
    ServerState × Option Jwt :=
  match st.cookies.refreshToken with
  | none => (st, none)
  | some token =>
    match verifyToken secret nowSec token with
    | none => (st, none)
    | some sessionData =>
      if !(sessionData.type == some TokType.refresh) then (st, none)
      else
        match getSession st.redis nowSec sessionData.userId with
        | none => (st, none)
        | some stored =>
          let newAccessToken := generateAccessToken secret nowSec stored.data
          let newRefreshToken := generateRefreshToken secret nowSec stored.data
          ({ st with cookies := { accessToken := some newAccessToken,
                                  refreshToken := some newRefreshToken } },
           some newAccessToken)

/-- Session-creation block of authRouter.signIn (procedures.ts): after the
service authenticates, generate both tokens, store the session in Redis and
set both cookies.  Returns the new state with the two freshly issued
tokens. -/
def signInCreateSession (secret : String) (nowSec : Nat) (st : ServerState)
    (sessionData : SessionData) : ServerState × Jwt × Jwt :=
  let accessToken := generateAccessToken secret nowSec sessionData
  let refreshToken := generateRefreshToken secret nowSec sessionData
  let redis1 := storeSession st.redis nowSec sessionData refreshToken
  ({ cookies := { accessToken := some accessToken, refreshToken := some refreshToken },
     redis := redis1 },
   accessToken, refreshToken)

/-! Observables used to state the properties: the counters and lock fields a
caller of the repository can read back. -/

/-- Attempt counter of the first verification-token row of an email (the
value the verifyEmail transaction reads). -/
def otpAttempts (db : DB) (email : String) : Nat :=
  ((db.tokens.find? (fun t => t.identifier == email)).map VerificationToken.attempts).getD 0

/-- Failed-login counter on the user row with the given id. -/
def failedLoginAttemptsOf (db : DB) (userId : String) : Nat :=
  ((authRepository.findById db userId).map User.failedLoginAttempts).getD 0

/-- Lock-until timestamp on the user row with the given id. -/
def lockedUntilOf (db : DB) (userId : String) : Option Nat :=
  (authRepository.findById db userId).bind User.lockedUntil

/-! Concrete fixtures used by witnesses and counterexamples. -/

/-- Session data of a signed-in principal, as built by authRouter.signIn. -/
def exSD : SessionData :=
  { userId := "u1", email := some "a@x.com", name := some "Alice",
    role := some Role.job_seeker, verified := some true,
    type := none, iat := none, exp := none }

/-- Server state with no cookies and an empty session store. -/
def exEmptyServer : ServerState :=
  { cookies := { accessToken := none, refreshToken := none }, redis := { sessions := [] } }

/-- Refresh token issued for `exSD` at second 1000. -/
def exRT : Jwt := generateRefreshToken "s" 1000 exSD

/-- State after sign-in: refresh cookie set to `exRT`, session stored. -/
def exState0 : ServerState :=
  { cookies := { accessToken := none, refreshToken := some exRT },
    redis := storeSession { sessions := [] } 1000 exSD exRT }

/-- State after a first, successful RefreshAccessToken call. -/
def exState1 : ServerState := (refreshAccessToken "s" 1001 exState0).1

/-- The same state with the original refresh token presented again (a replay
of the just-rotated-out token). -/
def exState1Replay : ServerState :=
  { exState1 with cookies := { exState1.cookies with refreshToken := some exRT } }

/-- Verified but suspended user with 3 failed login attempts and a correct
password hash for "pw123". -/
def exUserDisabled : User :=
  { id := "u1", name := "Alice", email := "a@x.com",
    passwordHash := some (bcryptHash "pw123"), role := Role.job_seeker,
    verified := true, status := UserStatus.suspended, verifiedAt := some 0,
    failedLoginAttempts := 3, lockedUntil := none, lastLogin := none }

/-- Store containing only `exUserDisabled`. -/
def exDBDisabled : DB := { users := [exUserDisabled], tokens := [] }

/-- Active verified user with 4 failed login attempts (one below the
threshold). -/
def exUserFail4 : User :=
  { id := "u2", name := "Bob", email := "b@x.com",
    passwordHash := some (bcryptHash "pw123"), role := Role.employer,
    verified := true, status := UserStatus.active, verifiedAt := some 0,
    failedLoginAttempts := 4, lockedUntil := none, lastLogin := none }

/-- User currently locked until instant 5000. -/
def exUserLocked : User :=
  { id := "u3", name := "Cara", email := "c@x.com",
    passwordHash := some (bcryptHash "pw123"), role := Role.job_seeker,
    verified := true, status := UserStatus.active, verifiedAt := some 0,
    failedLoginAttempts := 5, lockedUntil := some 5000, lastLogin := none }

/-- Store with the two users above. -/
def exDBSignIn : DB := { users := [exUserFail4, exUserLocked], tokens := [] }

/-- Verification-token row with 2 failed attempts (one below threshold). -/
def exTok2 : VerificationToken :=
  { identifier := "d@x.com", otp := "111111", expires := 99999, attempts := 2, lockedUntil := none }

/-- Verification-token row with no failed attempts. -/
def exTok0 : VerificationToken :=
  { identifier := "d@x.com", otp := "111111", expires := 99999, attempts := 0, lockedUntil := none }

/-- Store with one OTP row that has already seen 2 failed attempts. -/
def exDBOtp2 : DB := { users := [], tokens := [exTok2] }

/-- Store with one fresh OTP row. -/
def exDBOtp0 : DB := { users := [], tokens := [exTok0] }

/-- Unverified inactive user awaiting email verification. -/
def exUserUnverified : User :=
  { id := "u4", name := "Dan", email := "d@x.com",
    passwordHash := some (bcryptHash "pw123"), role := Role.job_seeker,
    verified := false, status := UserStatus.inactive, verifiedAt := none,
    failedLoginAttempts := 0, lockedUntil := none, lastLogin := none }

/-- Store for the verification success scenario: unverified user plus a
matching unexpired OTP row. -/
def exDBVerify : DB := { users := [exUserUnverified], tokens := [exTok0] }

/-- The empty store. -/
def exDBEmpty : DB := { users := [], tokens := [] }

/-- Signup input for a fresh email. -/
def exSignupInput : SignUpInput :=
  { name := "Eve", email := "e@x.com", password := "pw123", role := Role.job_seeker }

/-! Theorems. -/

/-- Helper: find? commutes with a pointwise update that does not change
which elements satisfy the predicate. -/
theorem find_map_of_pred_stable {α : Type} (f : α → α) (p : α → Bool)
    (hp : ∀ a, p (f a) = p a) :
    ∀ l : List α, (l.map f).find? p = (l.find? p).map f := by
  intro l
  induction l with
  | nil => rfl
  | cons a t ih =>
    simp only [List.map_cons]
    by_cases h : p a = true
    · rw [List.find?_cons_of_pos _ ((hp a).trans h), List.find?_cons_of_pos _ h]
      rfl
    · rw [List.find?_cons_of_neg _ (fun hc => h ((hp a) ▸ hc)),
          List.find?_cons_of_neg _ h, ih]

/-- C9: round-trip — a token issued by generateAccessToken and immediately
passed to verifyToken succeeds and yields back exactly the original claim
set, modulo the standard fields set at issuance (type, iat, exp).
Totality of verifyToken on untrusted input (never raising, always a result)
is expressed by its type `Jwt → Option SessionData`. -/
theorem generateAccessToken_verifyToken_roundtrip (secret : String) (nowSec : Nat)
    (sd : SessionData) :
    verifyToken secret nowSec (generateAccessToken secret nowSec sd) =
      some { sd with type := some TokType.access, iat := some nowSec,
                     exp := some (nowSec + 24 * 60 * 60) } := by
  simp [verifyToken, generateAccessToken]

/-- C10: getCurrentSession returns the claim set of any validly signed,
unexpired token in the accessToken cookie without inspecting its type
discriminator; in particular a refresh token placed there is accepted, its
payload (with type = refresh) returned as the current session. -/
theorem getCurrentSession_accepts_refresh_token (secret : String)
    (issuedSec nowSec : Nat) (sd : SessionData) (other : Option Jwt)
    (hunexpired : nowSec < issuedSec + 7 * 24 * 60 * 60) :
    getCurrentSession secret nowSec
        { accessToken := some (generateRefreshToken secret issuedSec sd),
          refreshToken := other } =
      some (generateRefreshToken secret issuedSec sd).payload ∧
    (generateRefreshToken secret issuedSec sd).payload.type = some TokType.refresh := by
  constructor
  · simp [getCurrentSession, verifyToken, generateRefreshToken, hunexpired]
  · rfl

/-- Witness for C10 at a concrete input: the refresh token issued at second
1000 is accepted as an access token at second 2000. -/
theorem getCurrentSession_accepts_refresh_token_witness :
    getCurrentSession "s" 2000
        { accessToken := some (generateRefreshToken "s" 1000 exSD), refreshToken := none } =
      some (generateRefreshToken "s" 1000 exSD).payload ∧
    (generateRefreshToken "s" 1000 exSD).payload.type = some TokType.refresh :=
  getCurrentSession_accepts_refresh_token "s" 1000 2000 exSD none (by omega)

/-- C8: resendVerificationEmail answers with the identical success message
whatever the store contents (user absent, unverified or verified), and its
total wall-clock duration is the elapsed real work topped up to the 800ms
floor — exactly 800ms whenever the work finished sooner. -/
theorem resendVerificationEmail_constant_message_and_floor
    (db db2 : DB) (now now2 : Nat) (email email2 otp otp2 : String)
    (ok ok2 : Bool) (elapsed elapsed2 : Nat) :
    (resendVerificationEmail db now email otp ok elapsed).2.message =
      (resendVerificationEmail db2 now2 email2 otp2 ok2 elapsed2).2.message ∧
    (resendVerificationEmail db now email otp ok elapsed).2.success = true ∧
    (resendVerificationEmail db now email otp ok elapsed).2.totalDurationMs =
      max elapsed TIMING_ATTACK_DELAY_MS := by
    refine ⟨rfl, rfl, ?_⟩
    show elapsed + (TIMING_ATTACK_DELAY_MS - elapsed) = max elapsed TIMING_ATTACK_DELAY_MS
    omega

/-- C2 counterexample: the claim says the stored session record holds only a
one-way hash of the refresh token, never the token itself; in fact, for
this concrete sign-in, the record stored under the principal's key contains
the issued refresh token itself, in plaintext (the stored field equals the
token, the negation of "never the refresh token itself"). -/
theorem storeSession_plaintext_counterexample :
    ((signInCreateSession "s" 1000 exEmptyServer exSD).1.redis.sessions.find?
        (fun kv => kv.1 == "u1")).map (fun kv => kv.2.refreshToken) =
      some (generateRefreshToken "s" 1000 exSD) := by
  rfl

/-- C2 amended: every write of a session record (sign-in and any call of
storeSession) stores the refresh token itself in plaintext inside the
record under the principal's key — no hash of it is computed or stored
anywhere in session.ts. -/
theorem storeSession_stores_refresh_token_plaintext (secret : String) (nowSec : Nat)
    (st : ServerState) (sd : SessionData) :
    ((signInCreateSession secret nowSec st sd).1.redis.sessions.find?
        (fun kv => kv.1 == sd.userId)) =
      some (sd.userId,
        { data := sd,
          refreshToken := (signInCreateSession secret nowSec st sd).2.2,
          createdAt := nowSec, expiresAt := nowSec + 7 * 24 * 60 * 60 }) ∧
    (signInCreateSession secret nowSec st sd).1.cookies.refreshToken =
      some (signInCreateSession secret nowSec st sd).2.2 := by
    constructor
    · simp [signInCreateSession, storeSession]
    · rfl

/-- C1 counterexample: the claim says a second RefreshAccessToken call
presenting the same refresh token fails and deletes the session record.
Concretely: the refresh token issued at sign-in is redeemed once
(successfully), then presented again — the second call also succeeds
(returns a new access token) and the session record for the principal is
still present. -/
theorem refreshAccessToken_reuse_counterexample :
    (refreshAccessToken "s" 1001 exState0).2.isSome = true ∧
    (refreshAccessToken "s" 1002 exState1Replay).2.isSome = true ∧
    ((refreshAccessToken "s" 1002 exState1Replay).1.redis.sessions.find?
        (fun kv => kv.1 == "u1")).isSome = true := by
  refine ⟨rfl, rfl, rfl⟩

/-- C1 amended: refreshAccessToken rotates tokens only by overwriting the
two cookies.  Whenever the presented refresh token verifies with type
refresh and a session record exists for its principal, the call succeeds,
and it leaves the session store entirely unchanged — there is no comparison
with a stored token hash, no revocation ledger, and no session deletion —
so the same refresh token presented twice in a row succeeds both times and
the old refresh token stays redeemable until its own expiry. -/
theorem refreshAccessToken_rotation_without_reuse_detection (secret : String)
    (nowSec : Nat) (st : ServerState) (token : Jwt) (sd : SessionData)
    (stored : StoredSession)
    (hcookie : st.cookies.refreshToken = some token)
    (hverify : verifyToken secret nowSec token = some sd)
    (htype : sd.type = some TokType.refresh)
    (hsession : getSession st.redis nowSec sd.userId = some stored) :
    (refreshAccessToken secret nowSec st).2 =
      some (generateAccessToken secret nowSec stored.data) ∧
    (refreshAccessToken secret nowSec st).1.redis = st.redis := by
  simp [refreshAccessToken, hcookie, hverify, htype, hsession]

/-- Witness for C1's amended theorem: the concrete post-sign-in state, where
the refresh call succeeds and the session store is untouched. -/
theorem refreshAccessToken_rotation_without_reuse_detection_witness :
    (refreshAccessToken "s" 1001 exState0).2 =
      some (generateAccessToken "s" 1001 exSD) ∧
    (refreshAccessToken "s" 1001 exState0).1.redis = exState0.redis :=
  refreshAccessToken_rotation_without_reuse_detection "s" 1001 exState0 exRT
    exRT.payload
    { data := exSD, refreshToken := exRT, createdAt := 1000,
      expiresAt := 1000 + 7 * 24 * 60 * 60 }
    rfl rfl rfl rfl

/-- C5 counterexample: the claim says any failing SignIn — including one
failing with AccountDisabled — leaves the failed-login counter unchanged.
Concretely: a verified but suspended user with 3 recorded failures signs in
with the correct password; the call fails with AccountDisabled, yet the
counter has been reset from 3 to 0. -/
theorem signIn_disabled_counter_counterexample :
    (signIn exDBDisabled 1000 { email := "a@x.com", password := "pw123" }).2 =
      Except.error (AuthError.accountDisabled UserStatus.suspended) ∧
    failedLoginAttemptsOf exDBDisabled "u1" = 3 ∧
    failedLoginAttemptsOf
      (signIn exDBDisabled 1000 { email := "a@x.com", password := "pw123" }).1 "u1" = 0 := by
  refine ⟨rfl, rfl, rfl⟩

/-- C5 amended: the failed-login counter is reset to 0 as soon as the
password comparison succeeds, before the account-status check — so a SignIn
call that fails with AccountDisabled has still reset the counter (failures
at or before the password comparison do not reset it). -/
theorem signIn_accountDisabled_resets_counter (db : DB) (now : Nat)
    (input : SignInInput) (user : User) (hash : String)
    (hfind : authRepository.findByEmail db input.email = some user)
    (hid : authRepository.findById db user.id = some user)
    (hnl : lockActive user now = false)
    (hhash : user.passwordHash = some hash)
    (hpw : comparePassword input.password hash = true)
    (hver : user.verified = true)
    (hdis : (user.status == UserStatus.active) = false) :
    (signIn db now input).2 = Except.error (AuthError.accountDisabled user.status) ∧
    failedLoginAttemptsOf (signIn db now input).1 user.id = 0 := by
  have hmap := find_map_of_pred_stable
      (fun u => if u.id == user.id then { u with failedLoginAttempts := 0 } else u)
      (fun u => u.id == user.id)
      (fun a => by by_cases h : (a.id == user.id) = true <;> simp [h])
      db.users
  simp only [authRepository.findById] at hid
  have hstep : signIn db now input =
      (authRepository.resetFailedLoginAttempts db user.id,
       Except.error (AuthError.accountDisabled user.status)) := by
    simp [signIn, hfind, hnl, hhash, hpw, hver, hdis]
  rw [hstep]
  refine ⟨rfl, ?_⟩
  simp only [failedLoginAttemptsOf, authRepository.findById,
             authRepository.resetFailedLoginAttempts]
  rw [hmap, hid]
  simp

/-- Witness for C5's amended theorem at the concrete suspended user. -/
theorem signIn_accountDisabled_resets_counter_witness :
    (signIn exDBDisabled 1000 { email := "a@x.com", password := "pw123" }).2 =
      Except.error (AuthError.accountDisabled exUserDisabled.status) ∧
    failedLoginAttemptsOf
      (signIn exDBDisabled 1000 { email := "a@x.com", password := "pw123" }).1
      exUserDisabled.id = 0 :=
  signIn_accountDisabled_resets_counter exDBDisabled 1000
    { email := "a@x.com", password := "pw123" } exUserDisabled (bcryptHash "pw123")
    rfl rfl rfl rfl rfl rfl rfl

/-- C4: on an existing principal, (a) a lock-until timestamp in the future
makes SignIn fail with AccountLocked, with the store unchanged and the same
outcome for every password (the check precedes any password comparison);
(b) when not locked and the password comparison fails, the failed-login
counter increments by one, and the call locks the account for 15 minutes
and fails with AccountLocked exactly when the resulting counter reaches 5,
failing with the generic InvalidCredentials (lock field untouched)
below that. -/
theorem signIn_lock_precondition_and_failed_attempts (db : DB) (now : Nat)
    (email : String) (user : User)
    (hfind : authRepository.findByEmail db email = some user)
    (hfind2 : db.users.find? (fun u => u.email == lower user.email) = some user)
    (hid : authRepository.findById db user.id = some user) :
    (∀ L password, user.lockedUntil = some L → now < L →
       signIn db now { email := email, password := password } =
         (db, Except.error (AuthError.accountLocked (minutesRemainingOf L now)))) ∧
    (∀ password hash, lockActive user now = false → user.passwordHash = some hash →
       comparePassword password hash = false →
       failedLoginAttemptsOf (signIn db now { email := email, password := password }).1
           user.id = user.failedLoginAttempts + 1 ∧
       (LOGIN_MAX_ATTEMPTS ≤ user.failedLoginAttempts + 1 →
          (signIn db now { email := email, password := password }).2 =
            Except.error (AuthError.accountLocked LOGIN_LOCKOUT_MINUTES) ∧
          lockedUntilOf (signIn db now { email := email, password := password }).1 user.id =
            some (now + LOGIN_LOCKOUT_MINUTES * 60 * 1000)) ∧
       (user.failedLoginAttempts + 1 < LOGIN_MAX_ATTEMPTS →
          (signIn db now { email := email, password := password }).2 =
            Except.error AuthError.invalidCredentials ∧
          lockedUntilOf (signIn db now { email := email, password := password }).1 user.id =
            user.lockedUntil)) := by
  simp only [authRepository.findById] at hid
  constructor
  · intro L password hL hnow
    have hla : lockActive user now = true := by simp [lockActive, hL, hnow]
    simp [signIn, hfind, hla, hL, minutesRemainingOf]
  · intro password hash hnl hhash hpw
    have hmap1 := find_map_of_pred_stable (fun u => if u.id == user.id then { u with failedLoginAttempts := u.failedLoginAttempts + 1 } else u) (fun u => u.id == user.id) (fun a => by by_cases h : (a.id == user.id) = true <;> simp [h]) db.users
    have hmap2 := find_map_of_pred_stable (fun u => if u.id == user.id then { u with lockedUntil := some (now + LOGIN_LOCKOUT_MINUTES * 60 * 1000) } else u) (fun u => u.id == user.id) (fun a => by by_cases h : (a.id == user.id) = true <;> simp [h]) (db.users.map (fun u => if u.id == user.id then { u with failedLoginAttempts := u.failedLoginAttempts + 1 } else u))
    have hinc : authRepository.incrementFailedLoginAttempts db user.email = ({ db with users := db.users.map (fun u => if u.id == user.id then { u with failedLoginAttempts := u.failedLoginAttempts + 1 } else u) }, some (user.failedLoginAttempts + 1)) := by
      simp only [authRepository.incrementFailedLoginAttempts, hfind2]
    by_cases hth : LOGIN_MAX_ATTEMPTS ≤ user.failedLoginAttempts + 1
    · have hstep : signIn db now { email := email, password := password } = ({ db with users := (db.users.map (fun u => if u.id == user.id then { u with failedLoginAttempts := u.failedLoginAttempts + 1 } else u)).map (fun u => if u.id == user.id then { u with lockedUntil := some (now + LOGIN_LOCKOUT_MINUTES * 60 * 1000) } else u) }, Except.error (AuthError.accountLocked LOGIN_LOCKOUT_MINUTES)) := by
        simp [signIn, hfind, hnl, hhash, hpw, hinc, hth, authRepository.lockAccount]
      rw [hstep]
      refine ⟨?_, fun _ => ⟨rfl, ?_⟩, fun hlt => absurd hth (by omega)⟩
      · simp only [failedLoginAttemptsOf, authRepository.findById]
        rw [hmap2, hmap1, hid]
        simp
      · simp only [lockedUntilOf, authRepository.findById]
        rw [hmap2, hmap1, hid]
        simp
    · have hstep : signIn db now { email := email, password := password } = ({ db with users := db.users.map (fun u => if u.id == user.id then { u with failedLoginAttempts := u.failedLoginAttempts + 1 } else u) }, Except.error AuthError.invalidCredentials) := by
        simp [signIn, hfind, hnl, hhash, hpw, hinc, hth]
      rw [hstep]
      refine ⟨?_, fun hge => absurd hge hth, fun _ => ⟨rfl, ?_⟩⟩
      · simp only [failedLoginAttemptsOf, authRepository.findById]
        rw [hmap1, hid]
        simp
      · simp only [lockedUntilOf, authRepository.findById]
        rw [hmap1, hid]
        simp

/-- Witness for C4 at concrete inputs: a user locked until instant 5000
fails at instant 1000 with AccountLocked whatever the password; a user with
4 prior failures supplying a wrong password reaches the threshold of 5, is
locked for 15 minutes and gets AccountLocked. -/
theorem signIn_lock_precondition_and_failed_attempts_witness :
    signIn exDBSignIn 1000 { email := "c@x.com", password := "x" } =
      (exDBSignIn, Except.error (AuthError.accountLocked (minutesRemainingOf 5000 1000))) ∧
    failedLoginAttemptsOf
      (signIn exDBSignIn 1000 { email := "b@x.com", password := "wrong" }).1 "u2" = 5 ∧
    (signIn exDBSignIn 1000 { email := "b@x.com", password := "wrong" }).2 =
      Except.error (AuthError.accountLocked LOGIN_LOCKOUT_MINUTES) ∧
    lockedUntilOf
      (signIn exDBSignIn 1000 { email := "b@x.com", password := "wrong" }).1 "u2" =
      some (1000 + LOGIN_LOCKOUT_MINUTES * 60 * 1000) := by
  have h1 := signIn_lock_precondition_and_failed_attempts exDBSignIn 1000 "c@x.com"
    exUserLocked rfl rfl rfl
  have h2 := signIn_lock_precondition_and_failed_attempts exDBSignIn 1000 "b@x.com"
    exUserFail4 rfl rfl rfl
  have h2f := h2.2 "wrong" (bcryptHash "pw123") rfl rfl rfl
  exact ⟨h1.1 5000 "x" rfl (by omega), h2f.1,
         (h2f.2.1 (by decide)).1, (h2f.2.1 (by decide)).2⟩

/-- C3: a VerifyEmail call with a wrong (non-matching or expired) code on a
non-locked email (token rows present) increments the attempt counter for
that email by exactly one; the call fails with OTPLocked and sets the
15-minute lock exactly when the cumulative counter reaches 3, and below the
threshold fails with InvalidOrExpiredOTP leaving the store changed only by
the increment.  The email is assumed already lowercase, as the zod
validator guarantees. -/
theorem verifyEmail_wrong_code_attempts_and_lockout (db : DB) (now : Nat)
    (email otp : String) (tok0 : VerificationToken)
    (hlow : lower email = email)
    (hnl : authRepository.isOTPLocked db email now = false)
    (hwrong : authRepository.findVerificationOTP db email otp now = none)
    (hex : db.tokens.find? (fun t => t.identifier == email) = some tok0) :
    otpAttempts (verifyEmail db now email otp).1 email = otpAttempts db email + 1 ∧
    (OTP_MAX_ATTEMPTS ≤ otpAttempts db email + 1 →
       (verifyEmail db now email otp).2 =
         Except.error (AuthError.otpLocked OTP_LOCKOUT_MINUTES) ∧
       ∀ t ∈ (verifyEmail db now email otp).1.tokens, t.identifier = email →
         t.lockedUntil = some (now + OTP_LOCKOUT_MINUTES * 60 * 1000)) ∧
    (otpAttempts db email + 1 < OTP_MAX_ATTEMPTS →
       (verifyEmail db now email otp).2 = Except.error AuthError.invalidOrExpiredOTP ∧
       (verifyEmail db now email otp).1 = authRepository.incrementOTPAttempts db email) := by
  have hOA : otpAttempts db email = tok0.attempts := by simp [otpAttempts, hex]
  have htok : tok0.identifier = email := by
    have h := List.find?_some hex
    simpa using h
  have hmap1 := find_map_of_pred_stable (fun t => if t.identifier == email then { t with attempts := t.attempts + 1 } else t) (fun t => t.identifier == email) (fun a => by by_cases h : (a.identifier == email) = true <;> simp [h]) db.tokens
  have hmap2 := find_map_of_pred_stable (fun t => if t.identifier == email then { t with lockedUntil := some (now + OTP_LOCKOUT_MINUTES * 60 * 1000) } else t) (fun t => t.identifier == email) (fun a => by by_cases h : (a.identifier == email) = true <;> simp [h]) (db.tokens.map (fun t => if t.identifier == email then { t with attempts := t.attempts + 1 } else t))
  rw [hOA]
  by_cases hth : OTP_MAX_ATTEMPTS ≤ tok0.attempts + 1
  · have hstep : verifyEmail db now email otp = ({ db with tokens := (db.tokens.map (fun t => if t.identifier == email then { t with attempts := t.attempts + 1 } else t)).map (fun t => if t.identifier == email then { t with lockedUntil := some (now + OTP_LOCKOUT_MINUTES * 60 * 1000) } else t) }, Except.error (AuthError.otpLocked OTP_LOCKOUT_MINUTES)) := by
      simp [verifyEmail, hnl, hwrong, hex, hth, authRepository.lockOTPVerification, hlow]
    rw [hstep]
    refine ⟨?_, fun _ => ⟨rfl, ?_⟩, fun hlt => absurd hth (by omega)⟩
    · simp only [otpAttempts]
      rw [hmap2, hmap1, hex]
      simp [htok]
    · intro t ht hident
      rcases List.mem_map.mp ht with ⟨s, _, rfl⟩
      have hsid : s.identifier = email := by
        by_cases h : (s.identifier == email) = true <;> simpa [h] using hident
      simp [hsid]
  · have hstep : verifyEmail db now email otp = ({ db with tokens := db.tokens.map (fun t => if t.identifier == email then { t with attempts := t.attempts + 1 } else t) }, Except.error AuthError.invalidOrExpiredOTP) := by
      simp [verifyEmail, hnl, hwrong, hex, hth]
    rw [hstep]
    refine ⟨?_, fun hge => absurd hge hth, fun _ => ⟨rfl, ?_⟩⟩
    · simp only [otpAttempts]
      rw [hmap1, hex]
      simp [htok]
    · simp [authRepository.incrementOTPAttempts, hlow]

/-- Witness for C3 at concrete inputs: an OTP row with 2 prior failures —
the third wrong code yields OTPLocked and a counter of 3; a fresh OTP row —
the first wrong code yields InvalidOrExpiredOTP and a counter of 1. -/
theorem verifyEmail_wrong_code_attempts_and_lockout_witness :
    otpAttempts (verifyEmail exDBOtp2 1000 "d@x.com" "999999").1 "d@x.com" = 3 ∧
    (verifyEmail exDBOtp2 1000 "d@x.com" "999999").2 =
      Except.error (AuthError.otpLocked OTP_LOCKOUT_MINUTES) ∧
    (verifyEmail exDBOtp0 1000 "d@x.com" "999999").2 =
      Except.error AuthError.invalidOrExpiredOTP ∧
    otpAttempts (verifyEmail exDBOtp0 1000 "d@x.com" "999999").1 "d@x.com" = 1 := by
  have h2 := verifyEmail_wrong_code_attempts_and_lockout exDBOtp2 1000 "d@x.com" "999999"
    exTok2 rfl rfl rfl rfl
  have h0 := verifyEmail_wrong_code_attempts_and_lockout exDBOtp0 1000 "d@x.com" "999999"
    exTok0 rfl rfl rfl rfl
  exact ⟨h2.1, (h2.2.1 (by decide)).1, (h0.2.2 (by decide)).1, h0.1⟩

/-- Helper: looking a user up by id after updateVerificationStatus returns
the looked-up row with the verification fields updated. -/
theorem findById_updateVerificationStatus (db : DB) (userId : String) (v : Bool) (now : Nat) :
    authRepository.findById (authRepository.updateVerificationStatus db userId v now) userId =
      (authRepository.findById db userId).map (fun u => { u with verified := v, verifiedAt := if v then some now else none, status := if v then UserStatus.active else UserStatus.inactive }) := by
  simp only [authRepository.findById, authRepository.updateVerificationStatus]
  rw [find_map_of_pred_stable (fun u => if u.id == userId then { u with verified := v, verifiedAt := if v then some now else none, status := if v then UserStatus.active else UserStatus.inactive } else u) (fun u => u.id == userId) (fun a => by by_cases h : (a.id == userId) = true <;> simp [h]) db.users]
  cases hf : db.users.find? (fun u => u.id == userId) with
  | none => rfl
  | some u =>
    have hu : u.id = userId := by simpa using List.find?_some hf
    simp [hu]

/-- C7: a VerifyEmail call on a non-locked email whose code matches an
unexpired OTP record sets the principal to verified = true with
status = active and verifiedAt = now, and deletes every OTP record of the
email, so no still-unexpired code survives to be replayed. -/
theorem verifyEmail_success_verifies_and_deletes (db : DB) (now : Nat)
    (email otp : String) (tok : VerificationToken) (user : User)
    (hnl : authRepository.isOTPLocked db email now = false)
    (hfound : authRepository.findVerificationOTP db email otp now = some tok)
    (huser : authRepository.findByEmail db email = some user)
    (hid : authRepository.findById db user.id = some user) :
    (verifyEmail db now email otp).2 =
      Except.ok { message := "Email verified successfully", success := true, userId := user.id, verified := true } ∧
    authRepository.findById (verifyEmail db now email otp).1 user.id =
      some { user with verified := true, verifiedAt := some now, status := UserStatus.active } ∧
    (verifyEmail db now email otp).1.tokens.filter (fun t => t.identifier == lower email) = [] := by
  have hstep : verifyEmail db now email otp =
      (authRepository.deleteVerificationOTPsByEmail (authRepository.updateVerificationStatus db user.id true now) email,
       Except.ok { message := "Email verified successfully", success := true, userId := user.id, verified := true }) := by
    simp [verifyEmail, hnl, hfound, huser]
  rw [hstep]
  refine ⟨rfl, ?_, ?_⟩
  · have hdel : authRepository.findById (authRepository.deleteVerificationOTPsByEmail (authRepository.updateVerificationStatus db user.id true now) email) user.id = authRepository.findById (authRepository.updateVerificationStatus db user.id true now) user.id := rfl
    rw [hdel, findById_updateVerificationStatus, hid]
    simp
  · apply List.filter_eq_nil_iff.mpr
    intro t ht
    have hmem := (List.mem_filter.mp ht).2
    simp_all

/-- Witness for C7 at a concrete input: the unverified user with a matching
unexpired code becomes verified and active, and the email has no OTP rows
left. -/
theorem verifyEmail_success_verifies_and_deletes_witness :
    (verifyEmail exDBVerify 1000 "d@x.com" "111111").2 =
      Except.ok { message := "Email verified successfully", success := true, userId := "u4", verified := true } ∧
    authRepository.findById (verifyEmail exDBVerify 1000 "d@x.com" "111111").1 "u4" =
      some { exUserUnverified with verified := true, verifiedAt := some 1000, status := UserStatus.active } ∧
    (verifyEmail exDBVerify 1000 "d@x.com" "111111").1.tokens.filter (fun t => t.identifier == lower "d@x.com") = [] :=
  verifyEmail_success_verifies_and_deletes exDBVerify 1000 "d@x.com" "111111"
    exTok0 exUserUnverified rfl rfl rfl rfl

/-- C6: a Signup call with an unregistered email (no stray OTP rows for it)
succeeds; the created principal is unverified with status inactive; exactly
one OTP record exists for that email afterwards; and the outcome is
identical whether or not email delivery succeeds.  The email is assumed
already lowercase, as the zod validator guarantees. -/
theorem signup_unverified_inactive_single_otp (db : DB) (now : Nat)
    (newId otp : String) (input : SignUpInput) (emailDeliveryOk : Bool)
    (hlow : lower input.email = input.email)
    (hnew : authRepository.emailExists db input.email = false)
    (hnotok : db.tokens.filter (fun t => t.identifier == input.email) = []) :
    (signup db now newId otp input emailDeliveryOk).2 =
      Except.ok { message := "Account created successfully. Please verify your email", success := true, user := { id := newId, name := input.name, email := input.email, role := input.role, verified := false } } ∧
    authRepository.findByEmail (signup db now newId otp input emailDeliveryOk).1 input.email =
      some { id := newId, name := input.name, email := input.email, passwordHash := some (hashPassword input.password), role := input.role, verified := false, status := UserStatus.inactive, verifiedAt := none, failedLoginAttempts := 0, lockedUntil := none, lastLogin := none } ∧
    ((signup db now newId otp input emailDeliveryOk).1.tokens.filter (fun t => t.identifier == input.email)).length = 1 ∧
    signup db now newId otp input true = signup db now newId otp input false := by
  have hfindnone : db.users.find? (fun u => u.email == input.email) = none := by
    cases h : db.users.find? (fun u => u.email == input.email) with
    | none => rfl
    | some u => simp [authRepository.emailExists, hlow, h] at hnew
  have hforall : ∀ x ∈ db.users, ¬ x.email = input.email := by
    intro x hx hx2
    have h2 := List.find?_eq_none.mp hfindnone x hx
    simp [hx2] at h2
  have hstep : signup db now newId otp input emailDeliveryOk =
      ({ users := db.users ++ [{ id := newId, name := input.name, email := input.email, passwordHash := some (hashPassword input.password), role := input.role, verified := false, status := UserStatus.inactive, verifiedAt := none, failedLoginAttempts := 0, lockedUntil := none, lastLogin := none }], tokens := db.tokens ++ [{ identifier := input.email, otp := otp, expires := now + 5 * 60 * 1000, attempts := 0, lockedUntil := none }] },
       Except.ok { message := "Account created successfully. Please verify your email", success := true, user := { id := newId, name := input.name, email := input.email, role := input.role, verified := false } }) := by
    simp [signup, authRepository.emailExists, authRepository.createUser, authRepository.createVerificationOTP, hlow]
    exact hforall
  rw [hstep]
  refine ⟨rfl, ?_, ?_, rfl⟩
  · simp only [authRepository.findByEmail, hlow]
    rw [List.find?_append, hfindnone]
    simp [List.find?]
  · simp [List.filter_append, hnotok, List.filter, hlow]

/-- Witness for C6 at a concrete input: signup on the empty store, with
email delivery failing, still succeeds and leaves one unverified inactive
user and exactly one OTP row. -/
theorem signup_unverified_inactive_single_otp_witness :
    (signup exDBEmpty 1000 "u9" "123456" exSignupInput false).2 =
      Except.ok { message := "Account created successfully. Please verify your email", success := true, user := { id := "u9", name := "Eve", email := "e@x.com", role := Role.job_seeker, verified := false } } ∧
    authRepository.findByEmail (signup exDBEmpty 1000 "u9" "123456" exSignupInput false).1 "e@x.com" =
      some { id := "u9", name := "Eve", email := "e@x.com", passwordHash := some (hashPassword "pw123"), role := Role.job_seeker, verified := false, status := UserStatus.inactive, verifiedAt := none, failedLoginAttempts := 0, lockedUntil := none, lastLogin := none } ∧
    ((signup exDBEmpty 1000 "u9" "123456" exSignupInput false).1.tokens.filter (fun t => t.identifier == "e@x.com")).length = 1 ∧
    signup exDBEmpty 1000 "u9" "123456" exSignupInput true = signup exDBEmpty 1000 "u9" "123456" exSignupInput false :=
  signup_unverified_inactive_single_otp exDBEmpty 1000 "u9" "123456" exSignupInput false
    rfl rfl rfl

end JobPortal
